import Mathlib

/-!
Shallow embedding of the go.watch watchlist bot core: the message tokenizer,
the command dispatcher (`MasterHandler` and the private command handlers in
`bot/handlers.go`), the entry/watchlist data model with its validation
(`bot/entry.go`), and the store operations backed by SQL statements
(`bot/entry.go`, `bot/list.go`).  Machine-level collaborators are made
explicit: the SQLite database is a list of rows, an SQL statement is kept as
its literal query string and executes through a small model of the driver
(a statement whose INSERT column list and placeholder count disagree fails to
prepare; a SELECT whose result list is parenthesized is a row value misuse).
-/

set_option autoImplicit false

namespace GoWatch

/-- One watchlist entry, after `Entry` in `bot/entry.go`: fields `UserID`,
`Date` (a `time.Time`, embedded as an abstract tick count), `Title`,
`Category` (a string type in Go), `Done`, `Rating`, `Link`. -/
structure Entry where
  UserID   : String
  Date     : Nat
  Title    : String
  Category : String
  Done     : Bool
  Rating   : Int
  Link     : String
deriving DecidableEq

/-- The category constants of `bot/entry.go` (`Movie`, `Show`, `Anime`). -/
def Movie : String := "movie"

def Show : String := "show"

def Anime : String := "anime"

/-- Errors of the SQL driver layer: a statement that fails to prepare
(for instance an INSERT whose column list and placeholder list have
different lengths) and a SELECT with a parenthesized result list
(SQLite reports "row value misused"). -/
inductive DBError where
  | prepareFailed
  | rowValueMisused
deriving DecidableEq

/-- The error taxonomy of `bot/errors.go`: `InvalidUserIDError`,
`InvalidTitleError`, `InvalidCategoryError`, `InvalidTimestampError`,
`InvalidSortByError`, `EntryNotFoundError`, `NotEnoughArgumentsError`,
plus a wrapper for errors surfaced from the SQL layer.  There is no
duplicate-key error type in the source. -/
inductive BotError where
  | invalidUserID (userID : String)
  | invalidTitle (title : String)
  | invalidCategory (category : String)
  | invalidTimestamp (time : String)
  | invalidSortBy (sortBy : String)
  | entryNotFound (userID title category : String)
  | notEnoughArguments (message : String)
  | db (e : DBError)
deriving DecidableEq

/-! ## Tokenizer

`bot/handlers.go` parses every message with
`REGEX_PATTERN = ("[^"]+"|\S+)` via `FindAllString(content, -1)`.
Go regular expressions use leftmost-first alternation, so at each
non-whitespace position the quoted alternative `"[^"]+"` is tried first
(an opening quote, at least one non-quote character, and the next quote,
all kept in the matched text) and otherwise `\S+` matches the maximal run
of non-whitespace characters.  Go's `\s` is exactly
`[\t\n\f\r ]`. -/

/-- Whitespace class of Go regexp (`\s = [\t\n\f\r space]`). -/
def goSpace (c : Char) : Bool :=
  c = ' ' || c = '\t' || c = '\n' || c = '\x0c' || c = '\r'

/-- Fuel-indexed scanner realizing `FindAllString` for the pattern
`("[^"]+"|\S+)`: skip whitespace; at `"` whose next quote comes after at
least one interior character emit the quoted run verbatim (quotes kept,
exactly what `FindAllString` returns); otherwise emit the maximal
non-whitespace run.  The fuel only serves termination and is never
exhausted when it exceeds the character count. -/
def tokenizeFuel : Nat → List Char → List String
  | 0, _ => []
  | _, [] => []
  | Nat.succ n, c :: cs =>
    if goSpace c then
      tokenizeFuel n cs
    else if c = '"' then
      let j := cs.findIdx (fun d => d = '"')
      if j < cs.length && 1 ≤ j then
        String.mk ('"' :: (cs.take j ++ ['"'])) :: tokenizeFuel n (cs.drop (j + 1))
      else
        String.mk ((c :: cs).takeWhile (fun d => !goSpace d)) ::
          tokenizeFuel n ((c :: cs).dropWhile (fun d => !goSpace d))
    else
      String.mk ((c :: cs).takeWhile (fun d => !goSpace d)) ::
        tokenizeFuel n ((c :: cs).dropWhile (fun d => !goSpace d))

/-- `REGEX_PATTERN.FindAllString(content, -1)` of `bot/handlers.go`. -/
def tokenize (content : String) : List String :=
  tokenizeFuel (content.toList.length + 1) content.toList

/-! ## Command dispatcher (`MasterHandler` in `bot/handlers.go`) -/

/-- The command constants of `bot/handlers.go`. -/
def ENTRYPOINT : String := "./watchlist"

def ADD_COMMAND : String := "add"

def DELETE_COMMAND : String := "delete"

def VIEW_COMMAND : String := "view"

def UPDATE_COMMAND : String := "update"

def HELP_COMMAND : String := "help"

def CONTACT_COMMAND : String := "contact"

/-- The private handlers `MasterHandler` can delegate to.  These are the
only handlers defined in `bot/handlers.go`. -/
inductive Handler where
  | add
  | delete
  | view
  | update
  | help
  | contact
deriving DecidableEq

/-- Observable outcome of one `MasterHandler` invocation: which private
handlers fired, in order, and whether the dispatcher performed an
out-of-range index into the token slice (a Go runtime panic). -/
structure DispatchOutcome where
  invoked  : List Handler
  panicked : Bool
deriving DecidableEq

/-- Dispatch on an already-tokenized argument slice, following
`MasterHandler` statement by statement: the `len(args) < 2` branch calls
`helpHandler` but does not return, after which `args[0]` is read
unconditionally (out of range on an empty slice), non-`ENTRYPOINT` first
tokens return, and `args[1]` is switched on (out of range when only the
prefix token is present). -/
def masterHandlerArgs (args : List String) : DispatchOutcome :=
  let pre : List Handler := if args.length < 2 then [Handler.help] else []
  match args with
  | [] => ⟨pre, true⟩
  | a0 :: rest =>
    if a0 ≠ ENTRYPOINT then ⟨pre, false⟩
    else
      match rest with
      | [] => ⟨pre, true⟩
      | a1 :: _ =>
        let h : Handler :=
          if a1 = ADD_COMMAND then Handler.add
          else if a1 = DELETE_COMMAND then Handler.delete
          else if a1 = VIEW_COMMAND then Handler.view
          else if a1 = UPDATE_COMMAND then Handler.update
          else if a1 = HELP_COMMAND then Handler.help
          else if a1 = CONTACT_COMMAND then Handler.contact
          else Handler.help
        ⟨pre ++ [h], false⟩

/-- `MasterHandler` of `bot/handlers.go`: self-authored messages are
ignored, otherwise the content is tokenized and dispatched. -/
def masterHandler (selfAuthored : Bool) (content : String) : DispatchOutcome :=
  if selfAuthored then ⟨[], false⟩
  else masterHandlerArgs (tokenize content)

/-! ## SQL driver model

Each store operation in the source keeps its SQL as a literal query string;
we carry those strings verbatim and model the two ways the SQLite driver
rejects them: an INSERT whose parenthesized column list and `?` placeholder
count disagree fails at `Prepare`, and a SELECT whose result list is
parenthesized is a row value misuse at query time. -/

/-- Number of `?` placeholders in a query string. -/
def placeholderCount (q : String) : Nat :=
  (q.toList.filter (fun c => c = '?')).length

/-- Number of columns in the first parenthesized list of a query string:
one more than the commas strictly between the first `(` and the `)`
closing it. -/
def firstParenColumnCount (q : String) : Nat :=
  let afterParen := (q.toList.dropWhile (fun c => c ≠ '(')).drop 1
  let inside := afterParen.takeWhile (fun c => c ≠ ')')
  (inside.filter (fun c => c = ',')).length + 1

/-- Whether a SELECT statement parenthesizes its result list (SQLite treats
`SELECT (a, b, ...) FROM ...` as a misused row value). -/
def selectListParenthesized (q : String) : Bool :=
  ((q.toList.drop 7).dropWhile goSpace).headD ' ' = '('

/-- The database: the `entries` relation as a list of rows, one `Entry`
per row. -/
abbrev DB := List Entry

/-- Key match on the composite key (userID, title, category) used by every
point lookup in `bot/list.go` and every WHERE clause in `bot/entry.go`. -/
def matchesKey (e : Entry) (userID title category : String) : Bool :=
  e.UserID == userID && e.Title == title && e.Category == category

/-! ## Entry-level store operations (`bot/entry.go`) -/

/-- The INSERT of `AddEntry` in `bot/entry.go`, verbatim: it names seven
columns but supplies only five placeholders. -/
def ADD_ENTRY_QUERY : String :=
  "INSERT INTO entries(userID, date, title, category, done, rating, link) VALUES(?, ?, ?, ?, ?)"

/-- The DELETE of `DeleteEntry` in `bot/entry.go`, verbatim. -/
def DELETE_ENTRY_QUERY : String :=
  "DELETE FROM entries WHERE userID = ? and title = ? and category = ?"

/-- The UPDATE of `UpdateEntry` in `bot/entry.go`, verbatim. -/
def UPDATE_ENTRY_QUERY : String :=
  "UPDATE entries SET link = ? WHERE userID = ? and title = ? and category = ?"

/-- `AddEntry(db, e)` of `bot/entry.go`: prepare the INSERT, then execute
it with the seven entry fields.  The statement prepares only when its
column list and placeholder list have equal length; otherwise the prepare
error is returned and nothing is written. -/
def addEntry (db : DB) (e : Entry) : Except DBError DB :=
  if firstParenColumnCount ADD_ENTRY_QUERY = placeholderCount ADD_ENTRY_QUERY then
    Except.ok (db ++ [e])
  else
    Except.error DBError.prepareFailed

/-- `DeleteEntry(db, userID, title, category)` of `bot/entry.go`: the
DELETE prepares (three placeholders, three parameters) and removes every
row matching the composite key. -/
def deleteEntry (db : DB) (userID title category : String) : Except DBError DB :=
  if placeholderCount DELETE_ENTRY_QUERY = 3 then
    Except.ok (db.filter (fun r => !matchesKey r userID title category))
  else
    Except.error DBError.prepareFailed

/-- `UpdateEntry(db, userID, title, category, newLink)` of `bot/entry.go`:
the UPDATE prepares (four placeholders, four parameters) and rewrites the
`link` column of every row matching the composite key, leaving every other
column of every row untouched. -/
def updateEntry (db : DB) (userID title category newLink : String) : Except DBError DB :=
  if placeholderCount UPDATE_ENTRY_QUERY = 4 then
    Except.ok (db.map (fun r =>
      if matchesKey r userID title category then { r with Link := newLink } else r))
  else
    Except.error DBError.prepareFailed

/-! ## Validation (`bot/entry.go`) -/

/-- `Category.IsValid` of `bot/entry.go`: `movie`, `show` and `anime` are
the only valid categories. -/
def categoryIsValid (c : String) : Option BotError :=
  if c = Movie || c = Show || c = Anime then none
  else some (BotError.invalidCategory c)

/-- `reflect.TypeOf(e.Date).String()` for the statically-typed
`time.Time` field: always the literal type name. -/
def dateTypeName (_e : Entry) : String := "time.Time"

/-- `Entry.IsValid` of `bot/entry.go`: empty user ID, empty title, invalid
category, then a reflection check of the date's type name (which can never
fire, the field being statically a `time.Time`).  `none` means valid. -/
def entryIsValid (e : Entry) : Option BotError :=
  if e.UserID = "" then some (BotError.invalidUserID e.UserID)
  else if e.Title = "" then some (BotError.invalidTitle e.Title)
  else
    match categoryIsValid e.Category with
    | some err => some err
    | none =>
      if dateTypeName e ≠ "time.Time" then
        some (BotError.invalidTimestamp e.Date.repr)
      else none

/-! ## Sort engine (`Watchlist.Sort` and `SortBy.IsValid` in the current
revision of the watchlist code) -/

/-- The `SortBy` enumeration constants. -/
def SORT_TITLE : String := "title"

def SORT_DATE : String := "date"

def SORT_CATEGORY : String := "category"

def SORT_WATCHED : String := "watched"

def SORT_RATING : String := "rating"

/-- `SortBy.IsValid`: the five enumerated keys are valid, anything else is
an `InvalidSortByError`. -/
def sortByIsValid (s : String) : Option BotError :=
  if s = SORT_TITLE || s = SORT_DATE || s = SORT_CATEGORY
      || s = SORT_WATCHED || s = SORT_RATING then none
  else some (BotError.invalidSortBy s)

/-- Insertion of one entry into a list ordered by the Go `less` function,
used to give `sort.Slice` a deterministic realization. -/
def insertOrdered (less : Entry → Entry → Bool) (e : Entry) : List Entry → List Entry
  | [] => [e]
  | x :: xs => if less e x then e :: x :: xs else x :: insertOrdered less e xs

/-- Deterministic realization of `sort.Slice` with a Go `less` function. -/
def sortEntries (less : Entry → Entry → Bool) (l : List Entry) : List Entry :=
  l.foldr (insertOrdered less) []

/-- `Watchlist.Sort`: warn (but proceed) on an invalid key, then switch on
the key with no default case, so an unmatched key leaves the entry slice
exactly as it was.  Returns the resulting slice together with whether the
soft validation warning was logged. -/
def watchlistSort (entries : List Entry) (sort_by : String) : List Entry × Bool :=
  let warned := (sortByIsValid sort_by).isSome
  let sorted :=
    if sort_by = SORT_TITLE then
      sortEntries (fun a b => decide (a.Title < b.Title)) entries
    else if sort_by = SORT_DATE then
      sortEntries (fun a b => decide (a.Date < b.Date)) entries
    else if sort_by = SORT_CATEGORY then
      sortEntries (fun a b => decide (a.Category < b.Category)) entries
    else if sort_by = SORT_WATCHED then
      sortEntries (fun a b => a.Done == b.Done) entries
    else if sort_by = SORT_RATING then
      sortEntries (fun a b => decide (a.Rating < b.Rating)) entries
    else entries
  (sorted, warned)

/-! ## Watchlist store (`bot/list.go`) -/

/-- The in-memory watchlist: a user ID and the entry slice. -/
structure Watchlist where
  UserID  : String
  Entries : List Entry
deriving DecidableEq

/-- The SELECT of `Watchlist.populate` in `bot/list.go`, verbatim: its
result list is parenthesized, which SQLite rejects as a misused row
value. -/
def POPULATE_QUERY : String :=
  "SELECT (userID, title, category, date, link) FROM entries WHERE userID = ?"

/-- `checkWatchlist(db, userID)` of `bot/list.go`: the EXISTS probe. -/
def checkWatchlist (db : DB) (userID : String) : Bool :=
  db.any (fun r => r.UserID == userID)

/-- `Watchlist.populate` of `bot/list.go`: run the SELECT and collect the
user's rows.  The query's parenthesized result list makes it fail, so the
error is returned and the entry slice is left unassigned. -/
def populate (db : DB) (userID : String) : Except DBError (List Entry) :=
  if selectListParenthesized POPULATE_QUERY then
    Except.error DBError.rowValueMisused
  else
    Except.ok (db.filter (fun r => r.UserID == userID))

/-- `FetchWatchlist(db, userID)` of `bot/list.go`: build an empty
watchlist, probe for existence, populate when rows exist; on a populate
error the watchlist keeps its empty entry slice and the error is returned
alongside it. -/
def fetchWatchlist (db : DB) (userID : String) : Watchlist × Option DBError :=
  let w : Watchlist := ⟨userID, []⟩
  if checkWatchlist db userID then
    match populate db userID with
    | Except.error er => (w, some er)
    | Except.ok es => (⟨userID, es⟩, none)
  else (w, none)

/-- `Watchlist.Add(db, e)` of `bot/list.go`: validate the entry, append it
to the in-memory slice, then insert it into the database via `AddEntry`.
Returns the updated watchlist, the updated database and the error, if
any.  On a validation error nothing is appended; on a database error the
in-memory append has already happened but the database is unchanged. -/
def watchlistAdd (w : Watchlist) (db : DB) (e : Entry) :
    Watchlist × DB × Option BotError :=
  match entryIsValid e with
  | some err => (w, db, some err)
  | none =>
    let w' : Watchlist := ⟨w.UserID, w.Entries ++ [e]⟩
    match addEntry db e with
    | Except.error er => (w', db, some (BotError.db er))
    | Except.ok db' => (w', db', none)

/-- The scan of `Watchlist.Delete` in `bot/list.go`: find the first entry
matching the composite key, remove it from the slice and delete its rows
from the database; when no entry matches, return `EntryNotFoundError`. -/
def watchlistDelete (entries : List Entry) (db : DB)
    (userID title category : String) : List Entry × DB × Option BotError :=
  match entries with
  | [] => ([], db, some (BotError.entryNotFound userID title category))
  | e :: rest =>
    if matchesKey e userID title category then
      match deleteEntry db e.UserID e.Title e.Category with
      | Except.error er => (rest, db, some (BotError.db er))
      | Except.ok db' => (rest, db', none)
    else
      let (es, db', r) := watchlistDelete rest db userID title category
      (e :: es, db', r)

/-- The scan of `Watchlist.Update` in `bot/list.go`: find the first entry
matching the composite key and rewrite its link in the database via
`UpdateEntry`; when no entry matches, return `EntryNotFoundError` without
touching the database. -/
def watchlistUpdate (entries : List Entry) (db : DB)
    (userID title category newLink : String) : Except BotError DB :=
  match entries with
  | [] => Except.error (BotError.entryNotFound userID title category)
  | e :: rest =>
    if matchesKey e userID title category then
      match updateEntry db e.UserID e.Title e.Category newLink with
      | Except.error er => Except.error (BotError.db er)
      | Except.ok db' => Except.ok db'
    else watchlistUpdate rest db userID title category newLink

/-! ## Command handlers (`addHandler`, `deleteHandler`, `updateHandler`
in `bot/handlers.go`).  Each tokenizes the message itself, checks a
minimum argument count, runs fetch and mutation while only logging their
errors, and ends with a single `ChannelMessageSend`. -/

/-- Observable result of one command handler invocation: the database
afterwards and the messages sent to the channel, in order. -/
structure HandlerResult where
  db    : DB
  sends : List String
deriving DecidableEq

/-- `addHandler` on an already-tokenized message: fewer than 4 tokens logs
`NotEnoughArgumentsError` and returns without replying; otherwise title
and category come from tokens 2 and 3, the link from token 4 only when
there are exactly 5 tokens, the watchlist is fetched and `Watchlist.Add`
invoked with both errors merely logged, and the confirmation is sent
unconditionally. -/
def addHandlerArgs (db : DB) (author : String) (now : Nat)
    (args : List String) : HandlerResult :=
  if args.length < 4 then ⟨db, []⟩
  else
    let title := args.getD 2 ""
    let category := args.getD 3 ""
    let link := if args.length = 5 then args.getD 4 "" else ""
    let entry : Entry := ⟨author, now, title, category, false, 0, link⟩
    let wl := (fetchWatchlist db author).1
    ⟨(watchlistAdd wl db entry).2.1, ["added " ++ title ++ " to your watchlist"]⟩

/-- `addHandler` of `bot/handlers.go`. -/
def addHandler (db : DB) (author : String) (now : Nat)
    (content : String) : HandlerResult :=
  addHandlerArgs db author now (tokenize content)

/-- `deleteHandler` on an already-tokenized message: fewer than 3 tokens
returns silently; otherwise the title is token 2, the category token 3
when present (else the empty string), fetch and `Watchlist.Delete` run
with errors only logged, and the confirmation is sent unconditionally. -/
def deleteHandlerArgs (db : DB) (author : String)
    (args : List String) : HandlerResult :=
  if args.length < 3 then ⟨db, []⟩
  else
    let title := args.getD 2 ""
    let category := if 4 ≤ args.length then args.getD 3 "" else ""
    let wl := (fetchWatchlist db author).1
    ⟨(watchlistDelete wl.Entries db author title category).2.1,
      ["deleted " ++ title ++ " from your watchlist"]⟩

/-- `deleteHandler` of `bot/handlers.go`. -/
def deleteHandler (db : DB) (author : String) (content : String) : HandlerResult :=
  deleteHandlerArgs db author (tokenize content)

/-- `updateHandler` on an already-tokenized message: fewer than 4 tokens
logs `NotEnoughArgumentsError` and returns without replying; with exactly
4 tokens the title is token 2 and the new link token 3 (category empty);
with 5 or more the category is token 3 and the new link token 4.  Fetch
and `Watchlist.Update` run with errors only logged, and the confirmation
is sent unconditionally. -/
def updateHandlerArgs (db : DB) (author : String)
    (args : List String) : HandlerResult :=
  if args.length < 4 then ⟨db, []⟩
  else
    let title := args.getD 2 ""
    let category := if 5 ≤ args.length then args.getD 3 "" else ""
    let newLink := if 5 ≤ args.length then args.getD 4 "" else args.getD 3 ""
    let wl := (fetchWatchlist db author).1
    ⟨(watchlistUpdate wl.Entries db author title category newLink).toOption.getD db,
      ["updated " ++ title ++ " -> " ++ newLink]⟩

/-- `updateHandler` of `bot/handlers.go`. -/
def updateHandler (db : DB) (author : String) (content : String) : HandlerResult :=
  updateHandlerArgs db author (tokenize content)

/-- A concrete valid entry used by the concrete evaluations below. -/
def sampleEntry : Entry := ⟨"u1", 0, "Dune", "movie", false, 0, ""⟩

/-! ## Theorems -/

/-- C1: the claim states that an `add` of a valid (owner, title, category)
triple followed by a fetch for the same owner yields exactly one matching
entry (read-your-writes).  The code violates this: `AddEntry`'s INSERT
names seven columns but carries five placeholders, so it fails to prepare
and persists nothing, and the fetch reports zero matching entries.  This
theorem evaluates the cited code at the failing input: adding
(u1, Dune, movie) to an empty store surfaces the prepare error, leaves the
store empty, and the follow-up fetch contains zero matching entries. -/
theorem C1_add_then_fetch_returns_nothing :
    (watchlistAdd (fetchWatchlist [] "u1").1 [] sampleEntry).2.2
        = some (BotError.db DBError.prepareFailed) ∧
    (watchlistAdd (fetchWatchlist [] "u1").1 [] sampleEntry).2.1 = [] ∧
    ((fetchWatchlist
        (watchlistAdd (fetchWatchlist [] "u1").1 [] sampleEntry).2.1 "u1").1.Entries.filter
      (fun r => matchesKey r "u1" "Dune" "movie")).length = 0 :=
  ⟨by decide, by decide, by decide⟩

/-- C5: the claim states that adding a duplicate (owner, title, category)
returns a `DuplicateKey` error distinct from the not-found error and
leaves the store unchanged.  The store is indeed left unchanged, but the
code has no duplicate-key error type and performs no uniqueness check:
the duplicate add fails with exactly the same malformed-INSERT prepare
error that a fresh, non-duplicate add fails with, so the failure does not
distinguish duplication at all. -/
theorem C5_duplicate_add_same_error_as_fresh_add :
    (watchlistAdd (fetchWatchlist [sampleEntry] "u1").1 [sampleEntry] sampleEntry).2.1
        = [sampleEntry] ∧
    (watchlistAdd (fetchWatchlist [sampleEntry] "u1").1 [sampleEntry] sampleEntry).2.2
        = some (BotError.db DBError.prepareFailed) ∧
    (watchlistAdd (fetchWatchlist [] "u1").1 [] sampleEntry).2.2
        = some (BotError.db DBError.prepareFailed) ∧
    some (BotError.db DBError.prepareFailed)
        ≠ some (BotError.entryNotFound "u1" "Dune" "movie") :=
  ⟨by decide, by decide, by decide, by decide⟩

/-- C9: the claim states that the dispatcher reads `args[0]` and `args[1]`
only when the tokenizer produced that many tokens, and in particular
returns cleanly on a whitespace-only message.  In the code the
`len(args) < 2` branch calls the help handler but does not return, so for
a whitespace-only message (zero tokens) the dispatcher goes on to read
`args[0]` out of range — a runtime panic. -/
theorem C9_whitespace_message_reads_out_of_range :
    tokenize " " = [] ∧ masterHandler false " " = ⟨[Handler.help], true⟩ :=
  ⟨by decide, by decide⟩

/-- Every token `tokenizeFuel` emits is nonempty and is either free of
whitespace (a `\S+` match) or delimited by a double quote on both ends
(a `"[^"]+"` match kept verbatim). -/
theorem tokenizeFuel_shape (n : Nat) :
    ∀ (cs : List Char) (t : String), t ∈ tokenizeFuel n cs →
      t.toList ≠ [] ∧
      ((∀ c ∈ t.toList, goSpace c = false) ∨
       (t.toList.head? = some '"' ∧ t.toList.getLast? = some '"')) := by
  induction n with
  | zero => intro cs t h; simp [tokenizeFuel] at h
  | succ n ih =>
    intro cs t h
    match cs with
    | [] => simp [tokenizeFuel] at h
    | c :: cs' =>
      rw [tokenizeFuel] at h
      by_cases hsp : goSpace c
      · simp only [hsp, if_true] at h
        exact ih cs' t h
      · simp only [hsp, if_false, Bool.false_eq_true] at h
        by_cases hq : c = '"'
        · simp only [hq, if_true] at h
          by_cases hj : (cs'.findIdx (fun d => d = '"') < cs'.length
              && 1 ≤ cs'.findIdx (fun d => d = '"')) = true
          · rw [if_pos hj] at h
            rcases List.mem_cons.mp h with rfl | hrec
            · refine ⟨by simp [String.toList], Or.inr ⟨by simp [String.toList], ?_⟩⟩
              show (('"' :: (cs'.take (cs'.findIdx (fun d => d = '"')) ++ ['"'])).getLast?)
                  = some '"'
              rw [← List.cons_append, List.getLast?_append_cons]
              rfl
            · exact ih _ t hrec
          · rw [if_neg hj] at h
            rcases List.mem_cons.mp h with rfl | hrec
            · constructor
              · simp [String.toList, List.takeWhile, goSpace]
              · left
                intro x hx
                have := List.mem_takeWhile_imp hx
                simpa using this
            · exact ih _ t hrec
        · simp only [hq, if_false] at h
          rcases List.mem_cons.mp h with rfl | hrec
          · constructor
            · simp [String.toList, List.takeWhile, hsp]
            · left
              intro x hx
              have := List.mem_takeWhile_imp hx
              simpa using this
          · exact ih _ t hrec

/-- C2, counterexample: the claim states that the quoted token comes out
with the quote characters stripped, so that the example message yields
the token `The Godfather`.  `FindAllString` returns the matched text
verbatim, quotes included, so the third token is `"The Godfather"` with
the quote characters. -/
theorem C2_counterexample_quotes_kept :
    tokenize "./watchlist add \"The Godfather\" movie https://x" ≠
      ["./watchlist", "add", "The Godfather", "movie", "https://x"] ∧
    tokenize "./watchlist add \"The Godfather\" movie https://x" =
      ["./watchlist", "add", "\"The Godfather\"", "movie", "https://x"] :=
  ⟨by decide, by decide⟩

/-- C3, counterexample: the claim states that a message whose first token
differs from the invocation prefix is discarded silently (no reply at
all).  The message `hi` tokenizes to one token differing from the
prefix, yet the dispatcher invokes the help handler (the `len(args) < 2`
branch fires for every short message before the prefix is examined). -/
theorem C3_counterexample_short_message_gets_help :
    (tokenize "hi").length < 2 ∧ (tokenize "hi").headD "" ≠ ENTRYPOINT ∧
    (masterHandler false "hi").invoked ≠ [] :=
  ⟨by decide, by decide, by decide⟩

/-- C4, counterexample: the claim states that the keyword `rate` (like
`done` and `random`) invokes the corresponding operation's handler.  No
such handler exists in the source: the dispatch for `rate` lands in the
default help case, indistinguishable from an arbitrary unmatched
keyword. -/
theorem C4_counterexample_rate_falls_to_help :
    masterHandler false "./watchlist rate Dune 5" = ⟨[Handler.help], false⟩ ∧
    masterHandler false "./watchlist rate Dune 5" =
      masterHandler false "./watchlist frobnicate Dune 5" :=
  ⟨by decide, by decide⟩

/-- C2, amended: for every raw message text the tokenizer produces, in
left-to-right order, tokens that are each either a run of non-whitespace
characters or a double-quoted phrase kept verbatim — the quote characters
are NOT stripped; in particular the example message yields the five
tokens with `"The Godfather"` still carrying its quotes. -/
theorem C2_tokens_words_or_quoted :
    (∀ (s : String) (t : String), t ∈ tokenize s →
      t.toList ≠ [] ∧
      ((∀ c ∈ t.toList, goSpace c = false) ∨
       (t.toList.head? = some '"' ∧ t.toList.getLast? = some '"'))) ∧
    tokenize "./watchlist add \"The Godfather\" movie https://x" =
      ["./watchlist", "add", "\"The Godfather\"", "movie", "https://x"] :=
  ⟨fun s t h => tokenizeFuel_shape (s.toList.length + 1) s.toList t h, by decide⟩

/-- Witness for C2: the token `abc` of the message `abc x` instantiates
the universally quantified part of the amended statement. -/
theorem C2_tokens_words_or_quoted_witness :
    "abc" ∈ tokenize "abc x" ∧
    ("abc".toList ≠ [] ∧
      ((∀ c ∈ "abc".toList, goSpace c = false) ∨
       ("abc".toList.head? = some '"' ∧ "abc".toList.getLast? = some '"'))) :=
  ⟨by decide, C2_tokens_words_or_quoted.1 "abc x" "abc" (by decide)⟩

/-- C3, amended: a message of fewer than two tokens always gets the help
reply, regardless of its first token; afterwards, because the short-circuit
branch does not return, the dispatcher reads past the end of the token
slice whenever there are zero tokens or the single token is the invocation
prefix, and terminates cleanly after the help reply only when the single
token differs from the prefix.  A message of two or more tokens whose
first token differs from the prefix is discarded silently. -/
theorem C3_short_message_dispatch (content : String) :
    (tokenize content = [] → masterHandler false content = ⟨[Handler.help], true⟩) ∧
    (∀ a, tokenize content = [a] → a = ENTRYPOINT →
        masterHandler false content = ⟨[Handler.help], true⟩) ∧
    (∀ a, tokenize content = [a] → a ≠ ENTRYPOINT →
        masterHandler false content = ⟨[Handler.help], false⟩) ∧
    (∀ a b rest, tokenize content = a :: b :: rest → a ≠ ENTRYPOINT →
        masterHandler false content = ⟨[], false⟩) := by
  refine ⟨fun h => ?_, fun a h ha => ?_, fun a h ha => ?_, fun a b rest h ha => ?_⟩
  · simp [masterHandler, h, masterHandlerArgs]
  · subst ha; simp [masterHandler, h, masterHandlerArgs]
  · simp [masterHandler, h, masterHandlerArgs, ha]
  · simp [masterHandler, h, masterHandlerArgs, ha]

/-- Witness for C3: each of the four cases of the amended statement
instantiated at a concrete message. -/
theorem C3_short_message_dispatch_witness :
    (tokenize "" = [] ∧ masterHandler false "" = ⟨[Handler.help], true⟩) ∧
    (tokenize "./watchlist" = [ENTRYPOINT] ∧
      masterHandler false "./watchlist" = ⟨[Handler.help], true⟩) ∧
    (tokenize "hi" = ["hi"] ∧ masterHandler false "hi" = ⟨[Handler.help], false⟩) ∧
    (tokenize "lorem ipsum" = ["lorem", "ipsum"] ∧
      masterHandler false "lorem ipsum" = ⟨[], false⟩) :=
  ⟨⟨by decide, (C3_short_message_dispatch "").1 (by decide)⟩,
   ⟨by decide, (C3_short_message_dispatch "./watchlist").2.1 ENTRYPOINT (by decide) rfl⟩,
   ⟨by decide, (C3_short_message_dispatch "hi").2.2.1 "hi" (by decide) (by decide)⟩,
   ⟨by decide,
    (C3_short_message_dispatch "lorem ipsum").2.2.2 "lorem" "ipsum" [] (by decide) (by decide)⟩⟩

/-- C4, amended: for a message with at least two tokens whose first token
is the invocation prefix, the dispatcher matches the second token against
the keyword set actually wired in the source — add, delete, view, update,
help, contact — invoking the corresponding handler; every other second
token (including `done`, `rate`, `random`, for which no handlers exist)
lands in the default help case. -/
theorem C4_keyword_dispatch (content a b : String) (rest : List String)
    (htok : tokenize content = a :: b :: rest) (ha : a = ENTRYPOINT) :
    (b = ADD_COMMAND → masterHandler false content = ⟨[Handler.add], false⟩) ∧
    (b = DELETE_COMMAND → masterHandler false content = ⟨[Handler.delete], false⟩) ∧
    (b = VIEW_COMMAND → masterHandler false content = ⟨[Handler.view], false⟩) ∧
    (b = UPDATE_COMMAND → masterHandler false content = ⟨[Handler.update], false⟩) ∧
    (b = HELP_COMMAND → masterHandler false content = ⟨[Handler.help], false⟩) ∧
    (b = CONTACT_COMMAND → masterHandler false content = ⟨[Handler.contact], false⟩) ∧
    (b ∉ ([ADD_COMMAND, DELETE_COMMAND, VIEW_COMMAND, UPDATE_COMMAND,
           HELP_COMMAND, CONTACT_COMMAND] : List String) →
        masterHandler false content = ⟨[Handler.help], false⟩) := by
  subst ha
  refine ⟨fun hb => ?_, fun hb => ?_, fun hb => ?_, fun hb => ?_, fun hb => ?_,
    fun hb => ?_, fun hb => ?_⟩
  all_goals first
    | (subst hb; simp [masterHandler, htok, masterHandlerArgs, ENTRYPOINT,
        ADD_COMMAND, DELETE_COMMAND, VIEW_COMMAND, UPDATE_COMMAND,
        HELP_COMMAND, CONTACT_COMMAND])
    | (simp only [List.mem_cons, List.mem_singleton, not_or] at hb
       obtain ⟨h1, h2, h3, h4, h5, h6⟩ := hb
       simp [masterHandler, htok, masterHandlerArgs, h1, h2, h3, h4, h5, h6])

/-- Witness for C4: the amended dispatch statement instantiated at the
message `./watchlist view` (a wired keyword) and at
`./watchlist random` (an unwired keyword falling to help). -/
theorem C4_keyword_dispatch_witness :
    masterHandler false "./watchlist view" = ⟨[Handler.view], false⟩ ∧
    masterHandler false "./watchlist random" = ⟨[Handler.help], false⟩ :=
  ⟨(C4_keyword_dispatch "./watchlist view" "./watchlist" "view" [] (by decide)
      (by decide)).2.2.1 rfl,
   (C4_keyword_dispatch "./watchlist random" "./watchlist" "random" [] (by decide)
      (by decide)).2.2.2.2.2.2 (by decide)⟩

/-- C6: for every watchlist and every sort key outside {title, date,
category, watched, rating}, `Watchlist.Sort` leaves the entry slice
exactly as it was (its validation is a soft warning, not an error, and
the switch has no default case), and the soft warning is reported. -/
theorem C6_unrecognized_key_sorts_nothing (entries : List Entry) (key : String)
    (h : key ∉ (["title", "date", "category", "watched", "rating"] : List String)) :
    watchlistSort entries key = (entries, true) := by
  simp only [List.mem_cons, List.mem_singleton, not_or] at h
  obtain ⟨h1, h2, h3, h4, h5⟩ := h
  simp [watchlistSort, sortByIsValid, SORT_TITLE, SORT_DATE, SORT_CATEGORY,
    SORT_WATCHED, SORT_RATING, h1, h2, h3, h4, h5]

/-- Witness for C6: sorting by the unrecognized key `position`. -/
theorem C6_unrecognized_key_sorts_nothing_witness :
    "position" ∉ (["title", "date", "category", "watched", "rating"] : List String) ∧
    watchlistSort [sampleEntry] "position" = ([sampleEntry], true) :=
  ⟨by decide, C6_unrecognized_key_sorts_nothing [sampleEntry] "position" (by decide)⟩

/-- `UpdateEntry`'s UPDATE statement prepares (four placeholders for four
parameters) and rewrites exactly the `link` column of the rows matching
the composite key. -/
theorem updateEntry_ok (db : DB) (u t c link : String) :
    updateEntry db u t c link =
      Except.ok (db.map (fun r =>
        if matchesKey r u t c then { r with Link := link } else r)) := by
  simp [updateEntry, UPDATE_ENTRY_QUERY]
  decide

/-- When some watchlist entry matches the key, `Watchlist.Update` reaches
`UpdateEntry` and succeeds with the link-rewritten database. -/
theorem watchlistUpdate_found (w : List Entry) (db : DB) (u t c link : String)
    (h : ∃ e ∈ w, matchesKey e u t c = true) :
    watchlistUpdate w db u t c link =
      Except.ok (db.map (fun r =>
        if matchesKey r u t c then { r with Link := link } else r)) := by
  induction w with
  | nil => simp at h
  | cons e rest ih =>
    by_cases he : matchesKey e u t c = true
    · have h1 : (e.UserID = u ∧ e.Title = t) ∧ e.Category = c := by
        simpa [matchesKey, Bool.and_eq_true, beq_iff_eq] using he
      simp [watchlistUpdate, he, h1.1.1, h1.1.2, h1.2, updateEntry_ok]
    · simp only [List.mem_cons] at h
      obtain ⟨x, hx, hmx⟩ := h
      rcases hx with rfl | hx
      · exact absurd hmx he
      · simp [watchlistUpdate, he, ih ⟨x, hx, hmx⟩]

/-- When no watchlist entry matches the key, `Watchlist.Update` returns
`EntryNotFoundError` without reaching any database statement. -/
theorem watchlistUpdate_not_found (w : List Entry) (db : DB) (u t c link : String)
    (h : ∀ e ∈ w, matchesKey e u t c = false) :
    watchlistUpdate w db u t c link = Except.error (BotError.entryNotFound u t c) := by
  induction w with
  | nil => rfl
  | cons e rest ih =>
    have he := h e (by simp)
    simp [watchlistUpdate, he, ih (fun x hx => h x (by simp [hx]))]

/-- C7: when an entry matching (owner, title, category) exists in the
fetched watchlist, `update` succeeds and rewrites only the `link` field of
the matching rows — the `with Link` update leaves owner, title, category,
creation date, done and rating of every row untouched; when no entry
matches, `update` returns the not-found error and modifies nothing. -/
theorem C7_update_rewrites_link_only (w : List Entry) (db : DB) (u t c link : String) :
    ((∃ e ∈ w, matchesKey e u t c = true) →
      watchlistUpdate w db u t c link =
        Except.ok (db.map (fun r =>
          if matchesKey r u t c then { r with Link := link } else r))) ∧
    ((∀ e ∈ w, matchesKey e u t c = false) →
      watchlistUpdate w db u t c link = Except.error (BotError.entryNotFound u t c)) :=
  ⟨watchlistUpdate_found w db u t c link, watchlistUpdate_not_found w db u t c link⟩

/-- Witness for C7: a matching update rewrites the link of the stored
row, a mismatching one reports not-found. -/
theorem C7_update_rewrites_link_only_witness :
    watchlistUpdate [sampleEntry] [sampleEntry] "u1" "Dune" "movie" "L" =
      Except.ok [⟨"u1", 0, "Dune", "movie", false, 0, "L"⟩] ∧
    watchlistUpdate [sampleEntry] [sampleEntry] "u1" "Other" "movie" "L" =
      Except.error (BotError.entryNotFound "u1" "Other" "movie") :=
  ⟨((C7_update_rewrites_link_only [sampleEntry] [sampleEntry] "u1" "Dune" "movie" "L").1
      ⟨sampleEntry, by decide, by decide⟩).trans (by rfl),
   (C7_update_rewrites_link_only [sampleEntry] [sampleEntry] "u1" "Other" "movie" "L").2
      (by decide)⟩

/-- C8: `Entry.IsValid` succeeds exactly when the owner is non-empty, the
title is non-empty and the category lies in the closed set
{movie, show, anime}; the rating is never inspected (changing it changes
nothing about validation); and the embedding of `IsValid` is a pure
function of the entry — it takes no database and returns only the
verdict. -/
theorem C8_validation_characterization (e : Entry) :
    (entryIsValid e = none ↔
      (e.UserID ≠ "" ∧ e.Title ≠ "" ∧
       e.Category ∈ (["movie", "show", "anime"] : List String))) ∧
    (∀ r : Int, entryIsValid { e with Rating := r } = entryIsValid e) := by
  constructor
  · by_cases h1 : e.UserID = "" <;> by_cases h2 : e.Title = "" <;>
      by_cases h3 : (e.Category = "movie" ∨ e.Category = "show") ∨ e.Category = "anime" <;>
      simp [entryIsValid, categoryIsValid, dateTypeName, Movie, Show, Anime,
        h1, h2, h3, List.mem_cons] <;> tauto
  · intro r; rfl

/-- C10: every add, delete or update message that passes its handler's
minimum-argument-count check produces exactly one channel send — the
confirmation — no matter what the watchlist fetch or the mutation
returned, because those errors are only logged. -/
theorem C10_confirmation_sent_once (db : DB) (author : String) (now : Nat)
    (content : String) :
    (4 ≤ (tokenize content).length →
      (addHandler db author now content).sends.length = 1) ∧
    (3 ≤ (tokenize content).length →
      (deleteHandler db author content).sends.length = 1) ∧
    (4 ≤ (tokenize content).length →
      (updateHandler db author content).sends.length = 1) := by
  refine ⟨fun h => ?_, fun h => ?_, fun h => ?_⟩
  · simp [addHandler, addHandlerArgs, Nat.not_lt.mpr h]
  · simp [deleteHandler, deleteHandlerArgs, Nat.not_lt.mpr h]
  · simp [updateHandler, updateHandlerArgs, Nat.not_lt.mpr h]

/-- Witness for C10: a four-token message passes all three argument-count
checks and each handler replies exactly once. -/
theorem C10_confirmation_sent_once_witness :
    (addHandler [] "u1" 0 "./watchlist add Dune movie").sends.length = 1 ∧
    (deleteHandler [] "u1" "./watchlist add Dune movie").sends.length = 1 ∧
    (updateHandler [] "u1" "./watchlist add Dune movie").sends.length = 1 :=
  ⟨(C10_confirmation_sent_once [] "u1" 0 "./watchlist add Dune movie").1 (by decide),
   (C10_confirmation_sent_once [] "u1" 0 "./watchlist add Dune movie").2.1 (by decide),
   (C10_confirmation_sent_once [] "u1" 0 "./watchlist add Dune movie").2.2 (by decide)⟩

end GoWatch
